import Mathlib

/-!
Verification development for the rollback-simulation core of the
`bevy_ggrs_demo` repository. The repository's `src/main.rs` wires the
GGRS rollback plugin: it registers the rollback component types
(`Transform`, `Velocity`, `FrameCount`, `Checksum`, lines 80-83), builds
the rollback schedule (stage `rollback_systems` with `apply_inputs`,
`update_velocity`, `move_players`, `increase_frame_count`, followed by
stage `checksum_update` with `checksum_players`, lines 84-103), and fixes
the session constants (`MAX_PREDICTION = 12`, line 22). The bodies of the
`round` and `checksum` modules are not part of the provided sources, so
those operations are modelled from the specification, as marked on each
definition.
-/

namespace BevyGgrsDemo

/-- Modelled from the spec (the `round` module's input code is not in the
provided sources): a player's raw control state, one bit per key
`up, down, left, right` plus one action bit. -/
structure RawControls where
  up : Bool
  down : Bool
  left : Bool
  right : Bool
  action : Bool
  deriving DecidableEq, Repr

/-- Modelled from the spec: `encode(raw_controls) -> InputRecord` packs the
control state into a fixed-size bit record (bit 0 = up, bit 1 = down,
bit 2 = left, bit 3 = right, bit 4 = action); simultaneous
opposite-direction presses on an axis cancel to neutral on that axis. -/
def encode (c : RawControls) : Nat :=
  (if c.up && !c.down then 1 else 0) +
  (if c.down && !c.up then 2 else 0) +
  (if c.left && !c.right then 4 else 0) +
  (if c.right && !c.left then 8 else 0) +
  (if c.action then 16 else 0)

/-- A decoded movement intent: a direction in `{-1,0,1} × {-1,0,1}`
plus the action flag. -/
structure MoveIntent where
  x : Int
  y : Int
  act : Bool
  deriving DecidableEq, Repr

/-- Modelled from the spec: `decode(InputRecord) -> movement_intent`
reconstructs the direction vector and action flag from the bit record. -/
def decode (i : Nat) : MoveIntent :=
  { x := (if i.testBit 3 then 1 else 0) - (if i.testBit 2 then 1 else 0)
    y := (if i.testBit 0 then 1 else 0) - (if i.testBit 1 then 1 else 0)
    act := i.testBit 4 }

/-- The neutral input record: no key pressed. -/
def neutralInput : Nat := 0

/-- A 2D vector of exact coordinates (the model replaces the source's
binary floating point with exact rational arithmetic; every operation the
spec requires — scaling, addition, clamping — is exact in both). -/
structure Vec2 where
  x : ℚ
  y : ℚ
  deriving DecidableEq, Repr

/-- Per-entity deterministic state: position, velocity, and the immutable
per-player ordinal. -/
structure Entity where
  position : Vec2
  velocity : Vec2
  handle : Nat
  deriving DecidableEq, Repr

/-- The whole deterministic simulation state: the two players' entities
and the frame counter. -/
structure GameState where
  player0 : Entity
  player1 : Entity
  frame : Nat
  deriving DecidableEq, Repr

/-- The fixed simulation constants the spec leaves symbolic: movement
speed, fixed timestep, arena half-extents, and entity radius. -/
structure Params where
  speed : ℚ
  dt : ℚ
  arenaHalfW : ℚ
  arenaHalfH : ℚ
  radius : ℚ
  deriving DecidableEq, Repr

/-- The arena is wide and tall enough to contain an entity. -/
def Params.Valid (p : Params) : Prop :=
  p.radius ≤ p.arenaHalfW ∧ p.radius ≤ p.arenaHalfH

instance (p : Params) : Decidable p.Valid := by
  unfold Params.Valid; infer_instance

/-- Clamp `v` into the interval `[lo, hi]`. -/
def clampQ (lo hi v : ℚ) : ℚ := if v < lo then lo else if hi < v then hi else v

/-- Modelled from the spec (the `round` module's `apply_inputs` /
`update_velocity` systems are not in the provided sources): if the
player's input decodes to a nonzero movement intent, velocity becomes
intent × fixed speed; otherwise the previous velocity is kept. -/
def updateVelocity (p : Params) (e : Entity) (inp : Nat) : Entity :=
  let d := decode inp
  if d.x = 0 ∧ d.y = 0 then e
  else { e with velocity := ⟨(d.x : ℚ) * p.speed, (d.y : ℚ) * p.speed⟩ }

/-- Modelled from the spec (the `round` module's `move_players` system is
not in the provided sources): position += velocity × fixed timestep, then
clamp each coordinate to the arena bounds shrunk by the entity radius
(clamping, not reflecting). -/
def movePlayer (p : Params) (e : Entity) : Entity :=
  { e with position :=
      ⟨clampQ (-(p.arenaHalfW - p.radius)) (p.arenaHalfW - p.radius)
          (e.position.x + e.velocity.x * p.dt),
        clampQ (-(p.arenaHalfH - p.radius)) (p.arenaHalfH - p.radius)
          (e.position.y + e.velocity.y * p.dt)⟩ }

/-- One entity's share of a frame advance: velocity update first, then
movement with clamping (the order `apply_inputs` → `update_velocity` →
`move_players` fixed by the system labels in `main.rs` lines 89-95). -/
def stepEntity (p : Params) (e : Entity) (inp : Nat) : Entity :=
  movePlayer p (updateVelocity p e inp)

/-- Modelled from the spec: the Frame Advancer
`advance(state, inputs[2]) -> state'` — each entity steps on its own
player's input, and the frame counter increases by exactly 1
(`increase_frame_count`). -/
def advance (p : Params) (s : GameState) (i : Nat × Nat) : GameState :=
  { player0 := stepEntity p s.player0 i.1
    player1 := stepEntity p s.player1 i.2
    frame := s.frame + 1 }

/-- Straight-through simulation of a list of per-frame input pairs. -/
def simulate (p : Params) (s : GameState) (l : List (Nat × Nat)) : GameState :=
  l.foldl (advance p) s

/-- Both coordinates of an entity's position lie inside the arena rectangle
shrunk by the entity radius. -/
def inBoundsE (p : Params) (e : Entity) : Prop :=
  -(p.arenaHalfW - p.radius) ≤ e.position.x ∧ e.position.x ≤ p.arenaHalfW - p.radius ∧
  -(p.arenaHalfH - p.radius) ≤ e.position.y ∧ e.position.y ≤ p.arenaHalfH - p.radius

instance (p : Params) (e : Entity) : Decidable (inBoundsE p e) := by
  unfold inBoundsE; infer_instance

/-- Both entities are inside the arena. -/
def inBoundsState (p : Params) (s : GameState) : Prop :=
  inBoundsE p s.player0 ∧ inBoundsE p s.player1

instance (p : Params) (s : GameState) : Decidable (inBoundsState p s) := by
  unfold inBoundsState; infer_instance

/-! ## Checksum model

The `checksum` module's body is not in the provided sources; it is
modelled from the spec. -/

/-- The checksum's fixed bit width. -/
def CHECKSUM_WIDTH : Nat := 64

/-- The quantized bit pattern of a signed quantity: a fixed injective
integer code (sign bit plus magnitude). -/
def intBits (z : Int) : Nat := 2 * z.natAbs + (if z < 0 then 1 else 0)

/-- Modelled from the spec: the quantized bit pattern of one coordinate —
an injective packing of its exact numerator and denominator, standing in
for the source's raw float bit pattern. -/
def quantize (q : ℚ) : Nat := Nat.pair (intBits q.num) q.den

/-- One mixing step of the checksum hash, truncated to the fixed width. -/
def mix (h v : Nat) : Nat := (h * 16777619 + v) % 2 ^ CHECKSUM_WIDTH

/-- Modelled from the spec: `compute(state, frame_count) -> Checksum`
(`checksum_players`) — a fixed-width hash combining the quantized bit
patterns of every entity's position and velocity and the current frame
count. -/
def checksumState (s : GameState) : Nat :=
  [quantize s.player0.position.x, quantize s.player0.position.y,
    quantize s.player0.velocity.x, quantize s.player0.velocity.y,
    quantize s.player1.position.x, quantize s.player1.position.y,
    quantize s.player1.velocity.x, quantize s.player1.velocity.y,
    s.frame].foldl mix 2166136261

/-! ## Checksum bookkeeping per frame

Per the schedule in `main.rs` lines 84-103, each simulated frame runs the
`rollback_systems` stage (the frame advance) and then the
`checksum_update` stage, which records the frame's checksum keyed by
frame index. -/

/-- Insert-or-overwrite a key in an association list. -/
def upsert (m : List (Nat × Nat)) (k v : Nat) : List (Nat × Nat) :=
  match m with
  | [] => [(k, v)]
  | (k', v') :: rest => if k' = k then (k, v) :: rest else (k', v') :: upsert rest k v

/-- One whole simulated frame: the frame-advance stage followed by the
checksum-update stage, which stores (overwriting any speculative entry)
the checksum of the just-computed state under its frame index. -/
def tickWithChecksum (p : Params) (st : GameState × List (Nat × Nat))
    (i : Nat × Nat) : GameState × List (Nat × Nat) :=
  let s' := advance p st.1 i
  (s', upsert st.2 s'.frame (checksumState s'))

/-- The rollback schedule of `main.rs` lines 84-103 as data: stage names
paired with the systems they run, in order. -/
def rollbackScheduleStages : List (String × List String) :=
  [("rollback_systems",
      ["apply_inputs", "update_velocity", "move_players", "increase_frame_count"]),
    ("checksum_update", ["checksum_players"])]

/-- Modelled from the spec: the phases touching one frame's state, in the
order they happen — the frame-advance systems, then the checksum update,
then (only later) rollback pruning that discards the frame's saved
state. -/
inductive TickPhase where
  | advancePhase : TickPhase
  | checksumPhase : TickPhase
  | prunePhase : TickPhase
  deriving DecidableEq, Repr

/-- Modelled from the spec: the per-frame phase order. -/
def framePhases : List TickPhase :=
  [TickPhase.advancePhase, TickPhase.checksumPhase, TickPhase.prunePhase]

/-! ## Session model

The rollback session manager (the `ggrs` session driven by the constants
of `main.rs`) is not in the provided sources; it is modelled from the
spec. -/

/-- `MAX_PREDICTION`, `main.rs` line 22. -/
def MAX_PREDICTION : Nat := 12

/-- `INPUT_DELAY`, `main.rs` line 23. -/
def INPUT_DELAY : Nat := 2

/-- The session's frame bookkeeping: `simulated` frames have been
advanced locally (the latest simulated frame is `simulated - 1`), and
frames before `confirmed` have real remote input (the earliest
unconfirmed frame is `confirmed`). -/
structure SessionState where
  simulated : Nat
  confirmed : Nat
  deriving DecidableEq, Repr

/-- The gap between the earliest unconfirmed frame and the latest
simulated frame. -/
def SessionState.gap (s : SessionState) : Nat := s.simulated - s.confirmed

/-- Modelled from the spec: one tick of the rollback session manager.
`arrivals` counts the remote-input frames drained from the transport this
tick; they advance the confirmed watermark (never past what has been
simulated). The tick then advances the local simulation by one frame
unless that would make the unconfirmed/simulated gap exceed
`MAX_PREDICTION`, in which case it stalls (no local advance). -/
def sessionTick (s : SessionState) (arrivals : Nat) : SessionState :=
  let c := if s.confirmed + arrivals ≤ s.simulated then s.confirmed + arrivals
    else s.simulated
  if s.simulated + 1 - c ≤ MAX_PREDICTION then
    { simulated := s.simulated + 1, confirmed := c }
  else
    { simulated := s.simulated, confirmed := c }

/-- The initial session state: nothing simulated, nothing confirmed. -/
def sessionInit : SessionState := { simulated := 0, confirmed := 0 }

/-- Run the session from the start over a list of per-tick arrival
counts. -/
def sessionRun (l : List Nat) : SessionState := l.foldl sessionTick sessionInit

/-! ## Session modes

The mode selection (`AppState::RoundLocal` / `AppState::RoundOnline`,
`main.rs` lines 153-171) feeds the same rollback schedule; the online
input pipeline is modelled from the spec. -/

/-- Modelled from the spec: the remote input used for frame `f` as of
tick `t` under a simulated network delay `d`. The real input for frame
`f` is available once `f + d ≤ t`; otherwise the last known real input is
held (prediction), and before any real input has arrived the neutral
input is used. -/
def usedRemoteInput (d : Nat) (remotes : List Nat) (t f : Nat) : Nat :=
  if f + d ≤ t then remotes.getD f neutralInput
  else if d ≤ t then remotes.getD (t - d) neutralInput
  else neutralInput

/-- Modelled from the spec: the online session's state after tick `t` —
frames `[0..t]` under the input history as corrected by tick `t` (by
replay equivalence, restoring the snapshot at a mispredicted frame and
replaying with corrected inputs yields exactly the straight recomputation
of the corrected history). -/
def onlineStateAfter (p : Params) (d : Nat) (s0 : GameState)
    (locals remotes : List Nat) (t : Nat) : GameState :=
  simulate p s0 ((List.range (t + 1)).map fun f =>
    (locals.getD f neutralInput, usedRemoteInput d remotes t f))

/-- Modelled from the spec: the local-mode session's state after tick `t`
— both input streams are local, so frame `f` always uses the real inputs,
through the same frame-advance step. -/
def localStateAfter (p : Params) (s0 : GameState)
    (locals remotes : List Nat) (t : Nat) : GameState :=
  simulate p s0 ((List.range (t + 1)).map fun f =>
    (locals.getD f neutralInput, remotes.getD f neutralInput))

/-! ## Rollback type registration

`main.rs` lines 80-83 register exactly the component types that
participate in rollback snapshots. -/

/-- The component types attached to round entities and resources. -/
inductive ComponentType where
  | transformC : ComponentType
  | velocityC : ComponentType
  | frameCountC : ComponentType
  | checksumC : ComponentType
  | playerC : ComponentType
  | roundEntityC : ComponentType
  deriving DecidableEq, Repr

/-- The rollback type registrations of `main.rs` lines 80-83, in order:
`Transform`, `Velocity`, `FrameCount`, `Checksum`. -/
def registeredRollbackTypes : List ComponentType :=
  [ComponentType.transformC, ComponentType.velocityC,
    ComponentType.frameCountC, ComponentType.checksumC]

/-- A world's worth of component values, one field per component type. -/
structure WorldComponents where
  transform : Vec2
  velocity : Vec2
  frameCount : Nat
  checksum : Nat
  player : Nat
  roundEntity : Bool
  deriving DecidableEq, Repr

/-- Modelled from the spec: restoring a rollback snapshot writes back the
saved value of every registered component type and leaves every
unregistered component type at its current value. -/
def restoreSnapshot (saved current : WorldComponents) : WorldComponents :=
  { transform := saved.transform
    velocity := saved.velocity
    frameCount := saved.frameCount
    checksum := saved.checksum
    player := current.player
    roundEntity := current.roundEntity }

/-! ## Fixtures for witnesses -/

/-- Concrete parameters: speed 5, timestep 1, arena half-extents 4 × 3,
entity radius 1. -/
def Pfix : Params := ⟨5, 1, 4, 3, 1⟩

/-- A concrete start state: both entities at the origin, at rest. -/
def Sfix : GameState := ⟨⟨⟨0, 0⟩, ⟨0, 0⟩, 0⟩, ⟨⟨0, 0⟩, ⟨0, 0⟩, 1⟩, 0⟩

/-! ## Helper lemmas -/

lemma clampQ_mem (lo hi v : ℚ) (h : lo ≤ hi) :
    lo ≤ clampQ lo hi v ∧ clampQ lo hi v ≤ hi := by
  unfold clampQ
  split_ifs with h1 h2 <;> constructor <;> linarith

lemma inBoundsE_movePlayer (p : Params) (hp : p.Valid) (e : Entity) :
    inBoundsE p (movePlayer p e) := by
  obtain ⟨hw, hh⟩ := hp
  have hx := clampQ_mem (-(p.arenaHalfW - p.radius)) (p.arenaHalfW - p.radius)
    (e.position.x + e.velocity.x * p.dt) (by linarith)
  have hy := clampQ_mem (-(p.arenaHalfH - p.radius)) (p.arenaHalfH - p.radius)
    (e.position.y + e.velocity.y * p.dt) (by linarith)
  exact ⟨hx.1, hx.2, hy.1, hy.2⟩

lemma inBoundsState_advance (p : Params) (hp : p.Valid) (s : GameState)
    (i : Nat × Nat) : inBoundsState p (advance p s i) :=
  ⟨inBoundsE_movePlayer p hp _, inBoundsE_movePlayer p hp _⟩

lemma simulate_append (p : Params) (s : GameState) (l l' : List (Nat × Nat)) :
    simulate p s (l ++ l') = simulate p (simulate p s l) l' :=
  List.foldl_append _ _ _ _

/-! ## Claim theorems -/

/-- C1: the frame-advance step is deterministic — computing
`advance (advance s i1) i2` twice from identical `(s, i1, i2)` yields
identical resulting states (positions, velocities, frame count). -/
theorem advance_deterministic (p : Params) (s s' : GameState)
    (i1 i1' i2 i2' : Nat × Nat)
    (hs : s = s') (h1 : i1 = i1') (h2 : i2 = i2') :
    advance p (advance p s i1) i2 = advance p (advance p s' i1') i2' := by
  subst hs; subst h1; subst h2; rfl

/-- Witness for C1 at concrete inputs. -/
theorem advance_deterministic_witness :
    advance Pfix (advance Pfix Sfix (8, 2)) (4, 0) =
      advance Pfix (advance Pfix Sfix (8, 2)) (4, 0) :=
  advance_deterministic Pfix Sfix Sfix (8, 2) (8, 2) (4, 0) (4, 0) rfl rfl rfl

/-- C2: replay equivalence — simulating an input history straight through
equals simulating the first `k` frames (the snapshot), then replaying the
rest from there; the final states and their checksums agree. -/
theorem replay_equivalence (p : Params) (s : GameState)
    (inputs : List (Nat × Nat)) (k : Nat) (_hk : k < inputs.length) :
    simulate p s inputs =
      simulate p (simulate p s (inputs.take k)) (inputs.drop k) ∧
    checksumState (simulate p s inputs) =
      checksumState (simulate p (simulate p s (inputs.take k)) (inputs.drop k)) := by
  have h : simulate p s inputs =
      simulate p (simulate p s (inputs.take k)) (inputs.drop k) := by
    conv_lhs => rw [← List.take_append_drop k inputs]
    exact simulate_append p s _ _
  exact ⟨h, congrArg checksumState h⟩

/-- Witness for C2 at a concrete two-frame history split at frame 1. -/
theorem replay_equivalence_witness :
    1 < [((8 : Nat), (2 : Nat)), (4, 0)].length ∧
    simulate Pfix Sfix [(8, 2), (4, 0)] =
      simulate Pfix (simulate Pfix Sfix ([(8, 2), (4, 0)].take 1))
        ([(8, 2), (4, 0)].drop 1) :=
  ⟨by decide, (replay_equivalence Pfix Sfix [(8, 2), (4, 0)] 1 (by decide)).1⟩

/-- C3: bounds invariant — with a sane arena, after every call to the
frame-advance step along any input sequence (from any prior state), both
entities' positions lie inside the arena rectangle shrunk by the entity
radius; positions are clamped at the edges. -/
theorem bounds_invariant (p : Params) (hp : p.Valid) (s : GameState)
    (inputs : List (Nat × Nat)) (k : Nat) (hk : k < inputs.length) :
    inBoundsState p (simulate p s (inputs.take (k + 1))) := by
  rcases List.eq_nil_or_concat (inputs.take (k + 1)) with h | ⟨L, b, h⟩
  · exfalso
    have hlen : (inputs.take (k + 1)).length = 0 := by rw [h]; rfl
    rw [List.length_take] at hlen
    omega
  · rw [h, List.concat_eq_append, simulate_append]
    exact inBoundsState_advance p hp _ b

/-- Witness for C3 after one advance from the concrete start state. -/
theorem bounds_invariant_witness :
    Pfix.Valid ∧ 0 < [((8 : Nat), (2 : Nat))].length ∧
    inBoundsState Pfix (simulate Pfix Sfix ([(8, 2)].take 1)) :=
  ⟨by decide, by decide, bounds_invariant Pfix (by decide) Sfix [(8, 2)] 0 (by decide)⟩

lemma stepEntity_velocity_neutral (p : Params) (e : Entity) (inp : Nat)
    (h : (decode inp).x = 0 ∧ (decode inp).y = 0) :
    (stepEntity p e inp).velocity = e.velocity := by
  simp [stepEntity, updateVelocity, movePlayer, h]

lemma stepEntity_velocity_move (p : Params) (e : Entity) (inp : Nat)
    (h : ¬((decode inp).x = 0 ∧ (decode inp).y = 0)) :
    (stepEntity p e inp).velocity =
      ⟨((decode inp).x : ℚ) * p.speed, ((decode inp).y : ℚ) * p.speed⟩ := by
  simp [stepEntity, updateVelocity, movePlayer, h]

lemma stepEntity_position (p : Params) (e : Entity) (inp : Nat) :
    (stepEntity p e inp).position.x =
      clampQ (-(p.arenaHalfW - p.radius)) (p.arenaHalfW - p.radius)
        (e.position.x + (stepEntity p e inp).velocity.x * p.dt) ∧
    (stepEntity p e inp).position.y =
      clampQ (-(p.arenaHalfH - p.radius)) (p.arenaHalfH - p.radius)
        (e.position.y + (stepEntity p e inp).velocity.y * p.dt) := by
  by_cases h : (decode inp).x = 0 ∧ (decode inp).y = 0 <;>
    simp [stepEntity, updateVelocity, movePlayer, h]

/-- C4: within one frame advance, for each entity the velocity update
happens first (nonzero decoded intent sets velocity to intent × speed,
neutral intent keeps the previous velocity), then the position becomes
the previous position displaced by the new velocity × timestep and
clamped to the arena bounds, and the frame counter increases by exactly
1. -/
theorem advance_step_order (p : Params) (s : GameState) (i : Nat × Nat) :
    (advance p s i).frame = s.frame + 1 ∧
    (((decode i.1).x = 0 ∧ (decode i.1).y = 0) →
        (advance p s i).player0.velocity = s.player0.velocity) ∧
    (¬((decode i.1).x = 0 ∧ (decode i.1).y = 0) →
        (advance p s i).player0.velocity =
          ⟨((decode i.1).x : ℚ) * p.speed, ((decode i.1).y : ℚ) * p.speed⟩) ∧
    (advance p s i).player0.position.x =
      clampQ (-(p.arenaHalfW - p.radius)) (p.arenaHalfW - p.radius)
        (s.player0.position.x + (advance p s i).player0.velocity.x * p.dt) ∧
    (advance p s i).player0.position.y =
      clampQ (-(p.arenaHalfH - p.radius)) (p.arenaHalfH - p.radius)
        (s.player0.position.y + (advance p s i).player0.velocity.y * p.dt) ∧
    (((decode i.2).x = 0 ∧ (decode i.2).y = 0) →
        (advance p s i).player1.velocity = s.player1.velocity) ∧
    (¬((decode i.2).x = 0 ∧ (decode i.2).y = 0) →
        (advance p s i).player1.velocity =
          ⟨((decode i.2).x : ℚ) * p.speed, ((decode i.2).y : ℚ) * p.speed⟩) ∧
    (advance p s i).player1.position.x =
      clampQ (-(p.arenaHalfW - p.radius)) (p.arenaHalfW - p.radius)
        (s.player1.position.x + (advance p s i).player1.velocity.x * p.dt) ∧
    (advance p s i).player1.position.y =
      clampQ (-(p.arenaHalfH - p.radius)) (p.arenaHalfH - p.radius)
        (s.player1.position.y + (advance p s i).player1.velocity.y * p.dt) :=
  ⟨rfl,
    fun h => stepEntity_velocity_neutral p s.player0 i.1 h,
    fun h => stepEntity_velocity_move p s.player0 i.1 h,
    (stepEntity_position p s.player0 i.1).1,
    (stepEntity_position p s.player0 i.1).2,
    fun h => stepEntity_velocity_neutral p s.player1 i.2 h,
    fun h => stepEntity_velocity_move p s.player1 i.2 h,
    (stepEntity_position p s.player1 i.2).1,
    (stepEntity_position p s.player1 i.2).2⟩

/-- Witness for C4: player0 presses right (record 8, nonzero intent),
player1 presses only the action key (record 16, neutral movement). -/
theorem advance_step_order_witness :
    (advance Pfix Sfix (8, 16)).frame = Sfix.frame + 1 ∧
    ¬((decode 8).x = 0 ∧ (decode 8).y = 0) ∧
    (advance Pfix Sfix (8, 16)).player0.velocity =
      ⟨((decode 8).x : ℚ) * Pfix.speed, ((decode 8).y : ℚ) * Pfix.speed⟩ ∧
    ((decode 16).x = 0 ∧ (decode 16).y = 0) ∧
    (advance Pfix Sfix (8, 16)).player1.velocity = Sfix.player1.velocity :=
  ⟨(advance_step_order Pfix Sfix (8, 16)).1,
    by decide,
    (advance_step_order Pfix Sfix (8, 16)).2.2.1 (by decide),
    by decide,
    (advance_step_order Pfix Sfix (8, 16)).2.2.2.2.2.1 (by decide)⟩

lemma lookup_upsert (m : List (Nat × Nat)) (k v : Nat) :
    (upsert m k v).lookup k = some v := by
  induction m with
  | nil => simp [upsert, List.lookup]
  | cons hd tl ih =>
      obtain ⟨k', v'⟩ := hd
      by_cases h : k' = k
      · subst h; simp [upsert, List.lookup]
      · have hb : (k == k') = false := by
          simp only [beq_eq_false_iff_ne, ne_eq]
          exact Ne.symm h
        simp [upsert, h, List.lookup, hb, ih]

/-- C5: per simulated frame the checksum system runs exactly once, in the
stage strictly after the stage holding all frame-advance systems; the
per-frame phase order puts the checksum update before rollback pruning;
and a (re)played frame's stored checksum is the checksum of the state
produced by that frame's advance, overwriting any speculative entry
already stored under that frame index. -/
theorem checksum_once_after_advance :
    ((rollbackScheduleStages.map Prod.snd).flatten.count "checksum_players" = 1) ∧
    (rollbackScheduleStages.findIdx (fun st => st.2.contains "checksum_players") = 1) ∧
    (rollbackScheduleStages.findIdx (fun st => st.2.contains "apply_inputs") = 0) ∧
    (rollbackScheduleStages.findIdx (fun st => st.2.contains "update_velocity") = 0) ∧
    (rollbackScheduleStages.findIdx (fun st => st.2.contains "move_players") = 0) ∧
    (rollbackScheduleStages.findIdx
        (fun st => st.2.contains "increase_frame_count") = 0) ∧
    (framePhases.count TickPhase.checksumPhase = 1) ∧
    (framePhases.indexOf TickPhase.advancePhase <
      framePhases.indexOf TickPhase.checksumPhase) ∧
    (framePhases.indexOf TickPhase.checksumPhase <
      framePhases.indexOf TickPhase.prunePhase) ∧
    (∀ (p : Params) (st : GameState × List (Nat × Nat)) (i : Nat × Nat),
      (tickWithChecksum p st i).1 = advance p st.1 i ∧
      ((tickWithChecksum p st i).2).lookup ((advance p st.1 i).frame) =
        some (checksumState (advance p st.1 i))) := by
  refine ⟨by decide, by decide, by decide, by decide, by decide, by decide,
    by decide, by decide, by decide, fun p st i => ⟨rfl, lookup_upsert _ _ _⟩⟩

/-- The session invariant: the confirmed watermark never passes the
simulated frontier, and the unconfirmed/simulated gap never exceeds the
prediction window. -/
def SessionInv (s : SessionState) : Prop :=
  s.confirmed ≤ s.simulated ∧ s.gap ≤ MAX_PREDICTION

lemma sessionTick_inv (s : SessionState) (a : Nat) (h : SessionInv s) :
    SessionInv (sessionTick s a) := by
  obtain ⟨h1, h2⟩ := h
  unfold SessionState.gap at h2
  unfold SessionInv SessionState.gap
  unfold sessionTick
  dsimp only
  split_ifs with hca hcb <;> refine ⟨?_, ?_⟩ <;> simp only <;> omega

lemma sessionRun_inv (l : List Nat) (s : SessionState) (h : SessionInv s) :
    SessionInv (l.foldl sessionTick s) := by
  induction l generalizing s with
  | nil => exact h
  | cons a t ih => exact ih _ (sessionTick_inv s a h)

/-- C6: with `MAX_PREDICTION = 12`, in every reachable session state the
gap between the earliest unconfirmed frame and the latest simulated frame
never exceeds 12, and a tick that receives no remote input while the gap
is already at the bound performs no further local advance (a stall). -/
theorem prediction_window_bound :
    MAX_PREDICTION = 12 ∧
    (∀ l : List Nat, (sessionRun l).gap ≤ MAX_PREDICTION) ∧
    (∀ s : SessionState, s.confirmed ≤ s.simulated →
      MAX_PREDICTION < s.simulated + 1 - s.confirmed →
      (sessionTick s 0).simulated = s.simulated) := by
  refine ⟨rfl, fun l => (sessionRun_inv l sessionInit ⟨le_refl 0, by decide⟩).2,
    fun s h1 h2 => ?_⟩
  unfold sessionTick
  dsimp only
  split_ifs with hca hcb <;> first | rfl | (exfalso; omega)

/-- Witness for C6: twenty remote-silent ticks stay within the window,
and a session at the bound stalls on a remote-silent tick. -/
theorem prediction_window_bound_witness :
    (sessionRun (List.replicate 20 0)).gap ≤ MAX_PREDICTION ∧
    (SessionState.mk 12 0).confirmed ≤ (SessionState.mk 12 0).simulated ∧
    MAX_PREDICTION < (SessionState.mk 12 0).simulated + 1 -
      (SessionState.mk 12 0).confirmed ∧
    (sessionTick (SessionState.mk 12 0) 0).simulated =
      (SessionState.mk 12 0).simulated :=
  ⟨prediction_window_bound.2.1 (List.replicate 20 0), by decide, by decide,
    prediction_window_bound.2.2 (SessionState.mk 12 0) (by decide) (by decide)⟩

/-- C7: input encoding is total over every raw control state, fits the
fixed bit width, and encoding simultaneous opposite-direction presses on
an axis yields the same input record as encoding no press on that axis. -/
theorem input_cancellation (c : RawControls) :
    encode { c with left := true, right := true } =
      encode { c with left := false, right := false } ∧
    encode { c with up := true, down := true } =
      encode { c with up := false, down := false } ∧
    encode c < 2 ^ 5 := by
  obtain ⟨u, d, l, r, a⟩ := c
  cases u <;> cases d <;> cases l <;> cases r <;> cases a <;> decide

/-- C8: the checksum is a fixed-width hash of at least 32 bits, and its
input combines every entity's quantized position and velocity and the
frame count — changing any one of them alone changes the example
checksums. -/
theorem checksum_combines :
    32 ≤ CHECKSUM_WIDTH ∧
    (∀ s : GameState, checksumState s < 2 ^ CHECKSUM_WIDTH) ∧
    checksumState Sfix ≠
      checksumState { Sfix with player0 := { Sfix.player0 with position := ⟨1, 0⟩ } } ∧
    checksumState Sfix ≠
      checksumState { Sfix with player0 := { Sfix.player0 with velocity := ⟨1, 0⟩ } } ∧
    checksumState Sfix ≠
      checksumState { Sfix with player1 := { Sfix.player1 with position := ⟨0, 1⟩ } } ∧
    checksumState Sfix ≠
      checksumState { Sfix with player1 := { Sfix.player1 with velocity := ⟨0, 1⟩ } } ∧
    checksumState Sfix ≠ checksumState { Sfix with frame := 1 } := by
  refine ⟨by decide, ?_, by decide, by decide, by decide, by decide, by decide⟩
  intro s
  unfold checksumState
  simp only [List.foldl]
  unfold mix
  exact Nat.mod_lt _ (Nat.pos_pow_of_pos CHECKSUM_WIDTH (by decide))

/-- C9: mode equivalence — an online session with zero simulated network
delay never predicts, so it produces exactly the local-mode state after
every tick, both driven through the same frame-advance step. -/
theorem mode_equivalence (p : Params) (s0 : GameState)
    (locals remotes : List Nat) (t : Nat) :
    onlineStateAfter p 0 s0 locals remotes t =
      localStateAfter p s0 locals remotes t := by
  unfold onlineStateAfter localStateAfter
  congr 1
  apply List.map_congr_left
  intro f hf
  have hft : f ≤ t := by
    have := List.mem_range.mp hf
    omega
  simp [usedRemoteInput, hft]

/-- C10: exactly the four component types `Transform`, `Velocity`,
`FrameCount`, `Checksum` are registered for rollback snapshots; restoring
a snapshot brings back the stored checksum value along with the
deterministic state, and restores no component type outside the
registered set. -/
theorem rollback_registration :
    registeredRollbackTypes =
      [ComponentType.transformC, ComponentType.velocityC,
        ComponentType.frameCountC, ComponentType.checksumC] ∧
    registeredRollbackTypes.length = 4 ∧
    ComponentType.checksumC ∈ registeredRollbackTypes ∧
    ComponentType.playerC ∉ registeredRollbackTypes ∧
    ComponentType.roundEntityC ∉ registeredRollbackTypes ∧
    (∀ saved current : WorldComponents,
      (restoreSnapshot saved current).transform = saved.transform ∧
      (restoreSnapshot saved current).velocity = saved.velocity ∧
      (restoreSnapshot saved current).frameCount = saved.frameCount ∧
      (restoreSnapshot saved current).checksum = saved.checksum ∧
      (restoreSnapshot saved current).player = current.player ∧
      (restoreSnapshot saved current).roundEntity = current.roundEntity) :=
  ⟨rfl, rfl, by decide, by decide, by decide,
    fun saved current => ⟨rfl, rfl, rfl, rfl, rfl, rfl⟩⟩

end BevyGgrsDemo
